import Mathlib

/-!
Verification development for the `s2_water_occurence` repository.

The repository is a single notebook (`src/run_extraction.ipynb`) that
authenticates to Google Earth Engine, loads a region-of-interest asset,
calls `f.get_monthly_water_occurence_yr(YEAR, ROI)` from the repository
module `src/gee_functions.py` (imported by the notebook but not present
under `src/`), displays the `freq_year` band, and submits an asynchronous
export of the full product over the bounding box of the region.

The aggregation pipeline itself is therefore modelled from the spec
(section 4.1): per month, filter the observation collection to the
sub-interval, count per pixel the valid observations and the
water-classified ones, set the band value to water/valid guarded by
valid > 0 (no-data otherwise), and assemble twelve monthly bands plus a
full-year band under deterministic names.  The notebook's own sequence of
calls is embedded as an explicit action trace.
-/

namespace S2WaterOccurence

/-- Per-pixel classification of one scene, as in the spec's data model:
water / not-water / no-data. -/
inductive Classification
  | water
  | notWater
  | noData
  deriving DecidableEq

/-- A remote-sensing scene: a capture month (sub-interval of the year the
collection was already filtered to) and a per-pixel classification. -/
structure Scene (P : Type) where
  month : Fin 12
  classify : P → Classification

/-- An observation is valid when it is not no-data. -/
def isValidObs : Classification → Bool
  | Classification.noData => false
  | _ => true

/-- An observation counts as water exactly when classified water. -/
def isWaterObs : Classification → Bool
  | Classification.water => true
  | _ => false

/-- Number of valid (non-no-data) observations of pixel `p` in a scene
collection. -/
def validCount {P : Type} (coll : List (Scene P)) (p : P) : Nat :=
  coll.countP (fun s => isValidObs (s.classify p))

/-- Number of water-classified observations of pixel `p` in a scene
collection. -/
def waterCount {P : Type} (coll : List (Scene P)) (p : P) : Nat :=
  coll.countP (fun s => isWaterObs (s.classify p))

/-- Modelled from the spec: band value at a pixel is the fraction
water/valid when the valid-observation count is positive, and no-data
(`none`) otherwise (spec section 4.1, step 3). -/
def occurrenceValue {P : Type} (coll : List (Scene P)) (p : P) : Option ℚ :=
  if 0 < validCount coll p then
    some ((waterCount coll p : ℚ) / (validCount coll p : ℚ))
  else
    none

/-- Scenes of the collection whose capture date falls in month `m`
(spec section 4.1, step 1). -/
def monthScenes {P : Type} (m : Nat) (coll : List (Scene P)) : List (Scene P) :=
  coll.filter (fun s => s.month.val == m)

/-- A named raster band of the occurrence product. -/
structure Band (P : Type) where
  name : String
  value : P → Option ℚ

/-- Deterministic monthly band name `<month-index>_freq_month`. -/
def monthBandName (m : Nat) : String := toString m ++ "_freq_month"

/-- Deterministic yearly band name. -/
def yearBandName : String := "freq_year"

/-- Modelled from the spec: the occurrence product assembled by
`get_monthly_water_occurence_yr` of `src/gee_functions.py` (imported by
the notebook, absent from `src/`): one band per month plus one band for
the full year, each a guarded per-pixel water fraction (spec section 4.1,
step 4). -/
def occurrenceProduct {P : Type} (coll : List (Scene P)) : List (Band P) :=
  ((List.range 12).map
    (fun m => Band.mk (monthBandName m) (occurrenceValue (monthScenes m coll))))
    ++ [Band.mk yearBandName (occurrenceValue coll)]

/-- Modelled from the spec: `get_monthly_water_occurence_yr(year, region)`
fetches the observation collection for the given year and region from the
archive and assembles the occurrence product from it. -/
def get_monthly_water_occurence_yr {P R : Type}
    (archive : String → R → List (Scene P)) (year : String) (region : R) :
    List (Band P) :=
  occurrenceProduct (archive year region)

/-- Modelled from the spec: a failure of the remote collection fetch
propagates to the caller unmodified; the aggregation performs no local
recovery or retry (spec sections 4.1 and 7). -/
def aggregateFetched {P : Type}
    (fetch : Except String (List (Scene P))) : Except String (List (Band P)) :=
  fetch.map occurrenceProduct

/-- Band selection as used by the notebook (`collection.select(...)`):
keep the bands whose name is listed. -/
def select {P : Type} (names : List String) (bands : List (Band P)) :
    List (Band P) :=
  bands.filter (fun b => names.contains b.name)

/-- Resolve a band name to the band of that name, as band selection by a
single name does. -/
def findBand {P : Type} (n : String) (bands : List (Band P)) :
    Option (Band P) :=
  bands.find? (fun b => b.name == n)

/-- The thirteen deterministic band names of the occurrence product. -/
def bandNames13 : List String := (List.range 12).map monthBandName ++ [yearBandName]

/-- An argument passed to the aggregator at its call site in the notebook:
either the year parameter or the region-of-interest parameter. -/
inductive Arg
  | yearArg (y : String)
  | regionArg (assetId : String)
  deriving DecidableEq

/-- Whether an argument is the region parameter. -/
def Arg.isRegionArg : Arg → Bool
  | Arg.regionArg _ => true
  | _ => false

/-- Whether an argument is the year parameter. -/
def Arg.isYearArg : Arg → Bool
  | Arg.yearArg _ => true
  | _ => false

/-- The arguments of the notebook's call `ee.batch.Export.image.toDrive`. -/
structure ExportParams where
  descr : String
  folder : String
  fname : String
  bands : List String
  scale : Nat
  crs : String
  maxPixels : Nat
  deriving DecidableEq

/-- One imperative step of the notebook.  The task constructors
`taskPoll`, `taskWait` and `taskRetry` model the completion-observing
calls the Earth Engine task API offers; the notebook never issues them. -/
inductive NotebookAction
  | authenticate
  | initProject (project : String)
  | loadAsset (assetId : String)
  | computeOccurrence (firstArg : Arg) (secondArg : Arg)
  | printInfo
  | addLayer (band : String) (visMin visMax : ℚ)
  | exportToDrive (params : ExportParams)
  | taskStart
  | taskPoll
  | taskWait
  | taskRetry
  deriving DecidableEq

/-- The export parameters of the notebook's single submission
(`ee.batch.Export.image.toDrive` call): the exported image is the whole
13-band product (`exported_collection = collection`; the band-subset line
is commented out in the notebook). -/
def notebookExportParams : ExportParams :=
  ExportParams.mk "Export water occurence raster" "GEE-exports"
    "isere_2020_water_occurence" bandNames13 10 "EPSG:4326" (10 ^ 13)

/-- The notebook `src/run_extraction.ipynb` as the sequence of calls it
performs, cell by cell. -/
def notebookTrace : List NotebookAction :=
  [ NotebookAction.authenticate,
    NotebookAction.initProject "ee-dw-water",
    NotebookAction.loadAsset "projects/ee-dw-water/assets/isere_HydroSHEDS_lev06",
    NotebookAction.computeOccurrence (Arg.yearArg "2020")
      (Arg.regionArg "projects/ee-dw-water/assets/isere_HydroSHEDS_lev06"),
    NotebookAction.printInfo,
    NotebookAction.addLayer "freq_year" (1 / 100 : ℚ) 1,
    NotebookAction.exportToDrive notebookExportParams,
    NotebookAction.taskStart ]

/-- First arguments of the aggregator calls occurring in a trace. -/
def aggregatorFirstArgs (t : List NotebookAction) : List Arg :=
  t.filterMap (fun a =>
    match a with
    | NotebookAction.computeOccurrence x _ => some x
    | _ => none)

/-- Second arguments of the aggregator calls occurring in a trace. -/
def aggregatorSecondArgs (t : List NotebookAction) : List Arg :=
  t.filterMap (fun a =>
    match a with
    | NotebookAction.computeOccurrence _ x => some x
    | _ => none)

/-- The export submissions occurring in a trace. -/
def exportSubmissions (t : List NotebookAction) : List ExportParams :=
  t.filterMap (fun a =>
    match a with
    | NotebookAction.exportToDrive q => some q
    | _ => none)

/-- Whether an action observes the remote export job after submission. -/
def observesTask : NotebookAction → Bool
  | NotebookAction.taskPoll => true
  | NotebookAction.taskWait => true
  | NotebookAction.taskRetry => true
  | _ => false

/-- Modelled from the spec: export submission is asynchronous and returns
a job handle immediately; no local failure is raised at submission time
(spec sections 5 and 8). -/
def submitExport (q : ExportParams) : Except String String :=
  Except.ok q.descr

/-- A raster pixel position. -/
abbrev Point := ℤ × ℤ

/-- Least element of an integer list, `none` on the empty list. -/
def listMin : List ℤ → Option ℤ
  | [] => none
  | x :: xs =>
    match listMin xs with
    | none => some x
    | some m => some (min x m)

/-- Greatest element of an integer list, `none` on the empty list. -/
def listMax : List ℤ → Option ℤ
  | [] => none
  | x :: xs =>
    match listMax xs with
    | none => some x
    | some m => some (max x m)

/-- Whether a point lies in the axis-aligned bounding box of a pixel
region. -/
def bboxContains (reg : List Point) (p : Point) : Bool :=
  match listMin (reg.map Prod.fst), listMax (reg.map Prod.fst),
      listMin (reg.map Prod.snd), listMax (reg.map Prod.snd) with
  | some a, some b, some c, some d =>
      decide (a ≤ p.1) && decide (p.1 ≤ b) && decide (c ≤ p.2) && decide (p.2 ≤ d)
  | _, _, _, _ => false

/-- The region argument the notebook passes to the export:
`ROI.geometry().bounds()`, the axis-aligned bounding rectangle of the
region of interest. -/
def exportedRegion (roi : List Point) : Point → Bool :=
  bboxContains roi

/-- A scene over a single-pixel raster with a constant classification,
used to build concrete test collections. -/
def sceneConst (m : Fin 12) (c : Classification) : Scene Unit :=
  Scene.mk m (fun _ => c)

/-- Arithmetic mean of the twelve monthly band values at a pixel
(no-data months contributing 0), the quantity the yearly band is NOT in
general equal to. -/
def monthlyMean {P : Type} (coll : List (Scene P)) (p : P) : ℚ :=
  (∑ m ∈ Finset.range 12, ((occurrenceValue (monthScenes m coll) p).getD 0)) / 12

/-- A concrete year of observations with unequal per-month
valid-observation counts: two water scenes in month 0 and one not-water
scene in each other month. -/
def collC3 : List (Scene Unit) :=
  [ sceneConst 0 Classification.water, sceneConst 0 Classification.water,
    sceneConst 1 Classification.notWater, sceneConst 2 Classification.notWater,
    sceneConst 3 Classification.notWater, sceneConst 4 Classification.notWater,
    sceneConst 5 Classification.notWater, sceneConst 6 Classification.notWater,
    sceneConst 7 Classification.notWater, sceneConst 8 Classification.notWater,
    sceneConst 9 Classification.notWater, sceneConst 10 Classification.notWater,
    sceneConst 11 Classification.notWater ]

/-- A concrete collection with a single water scene in month 0. -/
def collC2 : List (Scene Unit) :=
  [sceneConst 0 Classification.water]

/-- The yearly band of `collC2`. -/
def bandC2 : Band Unit :=
  Band.mk yearBandName (occurrenceValue collC2)

/-- A concrete collection whose month 0 has no observations at all. -/
def collC8 : List (Scene Unit) :=
  [sceneConst 1 Classification.water]

/-- A concrete archive snapshot. -/
def archW : String → Unit → List (Scene Unit) :=
  fun _ _ => []

/-- A concrete triangular region of pixels. -/
def roiTri : List Point :=
  [((0 : ℤ), (0 : ℤ)), ((2 : ℤ), (0 : ℤ)), ((0 : ℤ), (2 : ℤ))]

/-- A point inside the bounding box of `roiTri` but not in `roiTri`. -/
def ptOut : Point :=
  ((2 : ℤ), (2 : ℤ))

/-- Water-classified observations are in particular valid, so the water
count never exceeds the valid count. -/
theorem waterCount_le_validCount {P : Type} (coll : List (Scene P)) (p : P) :
    waterCount coll p ≤ validCount coll p := by
  refine List.countP_mono_left (fun s _ h => ?_)
  cases hc : s.classify p <;> simp [isWaterObs, isValidObs, hc] at h ⊢

/-- A defined occurrence value is a fraction in the closed unit
interval. -/
theorem occurrenceValue_bounds {P : Type} {coll : List (Scene P)} {p : P} {q : ℚ}
    (h : occurrenceValue coll p = some q) : 0 ≤ q ∧ q ≤ 1 := by
  rw [occurrenceValue] at h
  split at h
  · rename_i hv
    injection h with h
    subst h
    constructor
    · exact div_nonneg (Nat.cast_nonneg _) (Nat.cast_nonneg _)
    · rw [div_le_one (by exact_mod_cast hv)]
      exact_mod_cast waterCount_le_validCount coll p
  · exact absurd h (by simp)

/-- Every band of the occurrence product carries the occurrence values of
some sub-collection of scenes. -/
theorem mem_occurrenceProduct_value {P : Type} {coll : List (Scene P)} {b : Band P}
    (h : b ∈ occurrenceProduct coll) :
    ∃ l : List (Scene P), b.value = occurrenceValue l := by
  rw [occurrenceProduct, List.mem_append] at h
  rcases h with h | h
  · rcases List.mem_map.mp h with ⟨m, _, rfl⟩
    exact ⟨monthScenes m coll, rfl⟩
  · rcases List.mem_singleton.mp h with rfl
    exact ⟨coll, rfl⟩

/-- Selecting a monthly band name resolves to the band holding that
month's occurrence values. -/
theorem findBand_month {P : Type} (coll : List (Scene P)) (m : Fin 12) :
    findBand (monthBandName m.val) (occurrenceProduct coll)
      = some (Band.mk (monthBandName m.val)
          (occurrenceValue (monthScenes m.val coll))) := by
  fin_cases m <;> rfl

/-- Counting over a year of scenes splits into the twelve monthly
counts: every scene belongs to exactly one month. -/
theorem countP_month_partition {P : Type} (f : Scene P → Bool)
    (coll : List (Scene P)) :
    coll.countP f = ∑ m ∈ Finset.range 12, (monthScenes m coll).countP f := by
  induction coll with
  | nil => simp [monthScenes]
  | cons s t ih =>
    have hms : ∀ m, (monthScenes m (s :: t)).countP f
        = (monthScenes m t).countP f
          + (if s.month.val = m then (if f s then 1 else 0) else 0) := by
      intro m
      by_cases h : s.month.val = m
      · simp [monthScenes, List.filter_cons, h, List.countP_cons]
      · simp [monthScenes, List.filter_cons, h]
    rw [List.countP_cons, ih]
    simp only [hms]
    rw [Finset.sum_add_distrib, Finset.sum_ite_eq]
    have hmem : s.month.val ∈ Finset.range 12 := Finset.mem_range.mpr s.month.isLt
    simp [hmem]

/-- An empty minimum means an empty list. -/
theorem listMin_eq_none {t : List ℤ} (h : listMin t = none) : t = [] := by
  cases t with
  | nil => rfl
  | cons a b => cases hb : listMin b <;> simp [listMin, hb] at h

/-- An empty maximum means an empty list. -/
theorem listMax_eq_none {t : List ℤ} (h : listMax t = none) : t = [] := by
  cases t with
  | nil => rfl
  | cons a b => cases hb : listMax b <;> simp [listMax, hb] at h

/-- The computed minimum bounds every list element from below. -/
theorem listMin_le {xs : List ℤ} {a : ℤ} (h : listMin xs = some a) :
    ∀ x ∈ xs, a ≤ x := by
  induction xs generalizing a with
  | nil => simp [listMin] at h
  | cons y t ih =>
    intro x hx
    cases ht : listMin t with
    | none =>
      rw [listMin, ht] at h
      injection h with h
      subst h
      rcases List.mem_cons.mp hx with rfl | hxt
      · exact le_refl x
      · rw [listMin_eq_none ht] at hxt
        exact absurd hxt (List.not_mem_nil x)
    | some mt =>
      rw [listMin, ht] at h
      injection h with h
      subst h
      rcases List.mem_cons.mp hx with rfl | hxt
      · exact min_le_left _ _
      · exact le_trans (min_le_right _ _) (ih ht x hxt)

/-- The computed maximum bounds every list element from above. -/
theorem le_listMax {xs : List ℤ} {a : ℤ} (h : listMax xs = some a) :
    ∀ x ∈ xs, x ≤ a := by
  induction xs generalizing a with
  | nil => simp [listMax] at h
  | cons y t ih =>
    intro x hx
    cases ht : listMax t with
    | none =>
      rw [listMax, ht] at h
      injection h with h
      subst h
      rcases List.mem_cons.mp hx with rfl | hxt
      · exact le_refl x
      · rw [listMax_eq_none ht] at hxt
        exact absurd hxt (List.not_mem_nil x)
    | some mt =>
      rw [listMax, ht] at h
      injection h with h
      subst h
      rcases List.mem_cons.mp hx with rfl | hxt
      · exact le_max_left _ _
      · exact le_trans (ih ht x hxt) (le_max_right _ _)

/-- The bounding box of a region contains every point of the region. -/
theorem bboxContains_of_mem {roi : List Point} {q : Point} (hq : q ∈ roi) :
    bboxContains roi q = true := by
  have hx : q.1 ∈ roi.map Prod.fst := List.mem_map.mpr ⟨q, hq, rfl⟩
  have hy : q.2 ∈ roi.map Prod.snd := List.mem_map.mpr ⟨q, hq, rfl⟩
  rw [bboxContains]
  cases ha : listMin (roi.map Prod.fst) with
  | none => rw [listMin_eq_none ha] at hx; exact absurd hx (List.not_mem_nil _)
  | some a =>
    cases hb : listMax (roi.map Prod.fst) with
    | none => rw [listMax_eq_none hb] at hx; exact absurd hx (List.not_mem_nil _)
    | some b =>
      cases hc : listMin (roi.map Prod.snd) with
      | none => rw [listMin_eq_none hc] at hy; exact absurd hy (List.not_mem_nil _)
      | some d =>
        cases hd : listMax (roi.map Prod.snd) with
        | none => rw [listMax_eq_none hd] at hy; exact absurd hy (List.not_mem_nil _)
        | some e =>
          simp only [Bool.and_eq_true, decide_eq_true_eq]
          exact ⟨⟨⟨listMin_le ha _ hx, le_listMax hb _ hx⟩, listMin_le hc _ hy⟩,
            le_listMax hd _ hy⟩

/-- Claim C1: for every archive snapshot, year and region, the occurrence
product returned by `get_monthly_water_occurence_yr` contains exactly 13
bands: one per month plus one aggregate band for the year. -/
theorem C1_thirteen_bands : ∀ (P R : Type) (archive : String → R → List (Scene P))
    (year : String) (region : R),
    (get_monthly_water_occurence_yr archive year region).length = 13
    ∧ (get_monthly_water_occurence_yr archive year region).map Band.name
        = (List.range 12).map monthBandName ++ [yearBandName] := by
  intro P R archive year region
  exact ⟨rfl, rfl⟩

/-- Claim C2: every pixel value of every band of the occurrence product,
also after any band selection, is either no-data (`none`) or a number in
the closed interval [0,1]. -/
theorem C2_unit_interval : ∀ (P : Type) (coll : List (Scene P))
    (names : List String) (b : Band P),
    (b ∈ occurrenceProduct coll ∨ b ∈ select names (occurrenceProduct coll)) →
    ∀ (p : P) (q : ℚ), b.value p = some q → 0 ≤ q ∧ q ≤ 1 := by
  intro P coll names b hb p q hq
  have hmem : b ∈ occurrenceProduct coll := by
    rcases hb with h | h
    · exact h
    · exact List.mem_of_mem_filter h
  obtain ⟨l, hl⟩ := mem_occurrenceProduct_value hmem
  rw [hl] at hq
  exact occurrenceValue_bounds hq

/-- Witness for claim C2 at the concrete collection `collC2`, its yearly
band and its only pixel. -/
theorem C2_unit_interval_witness :
    0 ≤ ((waterCount collC2 () : ℚ) / (validCount collC2 () : ℚ))
    ∧ ((waterCount collC2 () : ℚ) / (validCount collC2 () : ℚ)) ≤ 1 :=
  C2_unit_interval Unit collC2 [] bandC2
    (Or.inl (List.mem_append_right _ (List.mem_singleton.mpr rfl))) () _ rfl

/-- Claim C3: the yearly band value is the water fraction over the whole
year's collection — whose counts are the sums of the monthly counts — and
on the concrete collection `collC3`, whose months have unequal
valid-observation counts, it differs from the arithmetic mean of the
twelve monthly band values (2/13 against 1/12). -/
theorem C3_yearly_not_mean :
    (∀ (P : Type) (coll : List (Scene P)) (p : P),
      validCount coll p = ∑ m ∈ Finset.range 12, validCount (monthScenes m coll) p
      ∧ waterCount coll p = ∑ m ∈ Finset.range 12, waterCount (monthScenes m coll) p
      ∧ (0 < validCount coll p →
          occurrenceValue coll p
            = some ((waterCount coll p : ℚ) / (validCount coll p : ℚ))))
    ∧ (validCount (monthScenes 0 collC3) () = 2
       ∧ validCount (monthScenes 1 collC3) () = 1
       ∧ occurrenceValue collC3 () = some (2 / 13)
       ∧ monthlyMean collC3 () = 1 / 12
       ∧ (2 / 13 : ℚ) ≠ 1 / 12) := by
  constructor
  · intro P coll p
    refine ⟨countP_month_partition _ coll, countP_month_partition _ coll, ?_⟩
    intro hv
    rw [occurrenceValue, if_pos hv]
  · refine ⟨by decide, by decide, ?_, ?_, by norm_num⟩
    · have hv : validCount collC3 () = 13 := by decide
      have hw : waterCount collC3 () = 2 := by decide
      rw [occurrenceValue, hv, hw]
      norm_num
    · have hw : ∀ m ∈ Finset.range 12,
          waterCount (monthScenes m collC3) () = if m = 0 then 2 else 0 := by decide
      have hv : ∀ m ∈ Finset.range 12,
          validCount (monthScenes m collC3) () = if m = 0 then 2 else 1 := by decide
      have hterm : ∀ m ∈ Finset.range 12,
          (occurrenceValue (monthScenes m collC3) ()).getD 0
            = if m = 0 then (1 : ℚ) else 0 := by
        intro m hm
        rw [occurrenceValue, hv m hm, hw m hm]
        by_cases h : m = 0 <;> simp [h]
      rw [monthlyMean, Finset.sum_congr rfl hterm]
      rw [Finset.sum_ite_eq' (Finset.range 12) 0 (fun _ => (1 : ℚ))]
      norm_num

/-- Witness for claim C3: on `collC3` the yearly value is the full-year
water fraction. -/
theorem C3_yearly_not_mean_witness :
    occurrenceValue collC3 ()
      = some ((waterCount collC3 () : ℚ) / (validCount collC3 () : ℚ)) :=
  (C3_yearly_not_mean.1 Unit collC3 ()).2.2 (by decide)

/-- Claim C4: a band pixel value is the water/valid fraction exactly when
the valid-observation count is positive; a zero valid count yields
no-data, never the numeric value 0, so the division is always guarded. -/
theorem C4_guarded_division : ∀ (P : Type) (coll : List (Scene P)) (p : P),
    (occurrenceValue coll p = none ↔ validCount coll p = 0)
    ∧ (∀ q : ℚ, occurrenceValue coll p = some q →
        0 < validCount coll p
        ∧ q = (waterCount coll p : ℚ) / (validCount coll p : ℚ))
    ∧ (validCount coll p = 0 → occurrenceValue coll p ≠ some 0) := by
  intro P coll p
  by_cases hv : 0 < validCount coll p
  · simp only [occurrenceValue, hv, if_true]
    refine ⟨by simp; omega, ?_, ?_⟩
    · intro q hq
      injection hq with hq
      exact ⟨trivial, hq.symm⟩
    · intro h0
      omega
  · have hv0 : validCount coll p = 0 := by omega
    simp only [occurrenceValue, hv, if_false]
    refine ⟨by simp [hv0], ?_, ?_⟩
    · intro q hq
      exact absurd hq (by simp)
    · intro _
      simp

/-- Witness for claim C4: the empty collection has valid count 0 and its
occurrence value is not the numeric 0. -/
theorem C4_guarded_division_witness :
    occurrenceValue ([] : List (Scene Unit)) () ≠ some 0 :=
  (C4_guarded_division Unit [] ()).2.2 rfl

/-- Claim C5: the bands of the occurrence product are named
deterministically — `<month-index>_freq_month` for the months and
`freq_year` for the year — the names are pairwise distinct, and selecting
a band by any of these names resolves to the corresponding band. -/
theorem C5_band_names : ∀ (P : Type) (coll : List (Scene P)),
    (occurrenceProduct coll).map Band.name
      = ["0_freq_month", "1_freq_month", "2_freq_month", "3_freq_month",
         "4_freq_month", "5_freq_month", "6_freq_month", "7_freq_month",
         "8_freq_month", "9_freq_month", "10_freq_month", "11_freq_month",
         "freq_year"]
    ∧ ((occurrenceProduct coll).map Band.name).Nodup
    ∧ findBand yearBandName (occurrenceProduct coll)
        = some (Band.mk yearBandName (occurrenceValue coll))
    ∧ (∀ m : Fin 12, findBand (monthBandName m.val) (occurrenceProduct coll)
        = some (Band.mk (monthBandName m.val)
            (occurrenceValue (monthScenes m.val coll)))) := by
  intro P coll
  refine ⟨rfl, ?_, rfl, findBand_month coll⟩
  show (["0_freq_month", "1_freq_month", "2_freq_month", "3_freq_month",
         "4_freq_month", "5_freq_month", "6_freq_month", "7_freq_month",
         "8_freq_month", "9_freq_month", "10_freq_month", "11_freq_month",
         "freq_year"] : List String).Nodup
  decide

/-- Claim C6: the notebook submits the export with scale 10, CRS
EPSG:4326 and maxPixels 10^13; submission returns a job handle without a
local failure; and after `task.start()` — the last step of the notebook —
no polling, waiting or retrying of the job ever occurs. -/
theorem C6_fire_and_forget :
    (∀ q : ExportParams, ∃ h, submitExport q = Except.ok h)
    ∧ (exportSubmissions notebookTrace = [notebookExportParams]
        ∧ notebookExportParams.scale = 10
        ∧ notebookExportParams.crs = "EPSG:4326"
        ∧ notebookExportParams.maxPixels = 10 ^ 13)
    ∧ notebookTrace.getLast? = some NotebookAction.taskStart
    ∧ notebookTrace.all (fun a => !observesTask a) = true := by
  refine ⟨fun q => ⟨q.descr, rfl⟩, ⟨rfl, rfl, rfl, rfl⟩, by decide, by decide⟩

/-- Claim C7, counterexample: it is false that the aggregator call of the
notebook passes the region as first argument — the notebook calls
`f.get_monthly_water_occurence_yr(YEAR, ROI)` with the year first. -/
theorem C7_region_first_false :
    ¬ (∀ x ∈ aggregatorFirstArgs notebookTrace, x.isRegionArg = true) := by
  decide

/-- Claim C7 as amended: the aggregator's sole surfaced interface is
invoked with the year as first argument and the region as second
argument. -/
theorem C7_year_first :
    aggregatorFirstArgs notebookTrace = [Arg.yearArg "2020"]
    ∧ aggregatorSecondArgs notebookTrace
        = [Arg.regionArg "projects/ee-dw-water/assets/isere_HydroSHEDS_lev06"]
    ∧ (∀ x ∈ aggregatorFirstArgs notebookTrace, x.isYearArg = true)
    ∧ (∀ x ∈ aggregatorSecondArgs notebookTrace, x.isRegionArg = true) := by
  refine ⟨rfl, rfl, by decide, by decide⟩

/-- Witness for the amended claim C7 at the notebook's actual first
argument. -/
theorem C7_year_first_witness : Arg.isYearArg (Arg.yearArg "2020") = true :=
  C7_year_first.2.2.1 (Arg.yearArg "2020") (by decide)

/-- Claim C8: a month with zero valid observations anywhere still yields
an all-no-data band inside a full 13-band product rather than a failure,
and a failed remote fetch propagates to the caller unmodified. -/
theorem C8_empty_month_nodata :
    (∀ (P : Type) (coll : List (Scene P)) (m : Fin 12),
      (∀ p : P, validCount (monthScenes m.val coll) p = 0) →
      ∃ b : Band P,
        findBand (monthBandName m.val) (occurrenceProduct coll) = some b
        ∧ (∀ p : P, b.value p = none)
        ∧ (occurrenceProduct coll).length = 13)
    ∧ (∀ (P : Type) (e : String),
        @aggregateFetched P (Except.error e) = Except.error e) := by
  constructor
  · intro P coll m hz
    refine ⟨Band.mk (monthBandName m.val)
        (occurrenceValue (monthScenes m.val coll)),
      findBand_month coll m, ?_, rfl⟩
    intro p
    show occurrenceValue (monthScenes m.val coll) p = none
    rw [occurrenceValue, hz p]
    simp
  · intro P e
    rfl

/-- Witness for claim C8 at the concrete collection `collC8`, whose month
0 has no observations. -/
theorem C8_empty_month_nodata_witness :
    ∃ b : Band Unit,
      findBand (monthBandName 0) (occurrenceProduct collC8) = some b
      ∧ (∀ p : Unit, b.value p = none)
      ∧ (occurrenceProduct collC8).length = 13 :=
  C8_empty_month_nodata.1 Unit collC8 0 (by decide)

/-- Claim C9: the aggregation is deterministic — with a fixed archive
snapshot, two calls with the same year and region yield the same
occurrence product, hence identical band statistics. -/
theorem C9_deterministic : ∀ (P R : Type) (archive : String → R → List (Scene P))
    (y y2 : String) (r r2 : R), y = y2 → r = r2 →
    get_monthly_water_occurence_yr archive y r
      = get_monthly_water_occurence_yr archive y2 r2 := by
  intro P R archive y y2 r r2 hy hr
  rw [hy, hr]

/-- Witness for claim C9 at a concrete archive, year and region. -/
theorem C9_deterministic_witness :
    get_monthly_water_occurence_yr archW "2020" ()
      = get_monthly_water_occurence_yr archW "2020" () :=
  C9_deterministic Unit Unit archW "2020" "2020" () () rfl rfl

/-- Claim C10: the run submits exactly one export job; the job exports
the full 13-band occurrence product, not a band subset; the exported
region is the axis-aligned bounding box of the region of interest, which
contains every region pixel but also pixels outside the region, as on the
concrete region `roiTri` and the point `ptOut`. -/
theorem C10_single_export_full_bbox :
    (exportSubmissions notebookTrace).length = 1
    ∧ (∀ q ∈ exportSubmissions notebookTrace, q.bands = bandNames13)
    ∧ (∀ (P : Type) (coll : List (Scene P)),
        (occurrenceProduct coll).map Band.name = bandNames13)
    ∧ bandNames13.length = 13
    ∧ (∀ (roi : List Point) (q : Point), q ∈ roi → exportedRegion roi q = true)
    ∧ (exportedRegion roiTri ptOut = true ∧ ptOut ∉ roiTri) := by
  refine ⟨rfl, by decide, fun P coll => rfl, rfl,
    fun roi q hq => bboxContains_of_mem hq, by decide, by decide⟩

/-- Witness for claim C10 at the notebook's export submission and a
concrete region point. -/
theorem C10_single_export_full_bbox_witness :
    notebookExportParams.bands = bandNames13
    ∧ exportedRegion roiTri ((0 : ℤ), (0 : ℤ)) = true :=
  ⟨C10_single_export_full_bbox.2.1 notebookExportParams (by decide),
   C10_single_export_full_bbox.2.2.2.2.1 roiTri ((0 : ℤ), (0 : ℤ)) (by decide)⟩

end S2WaterOccurence
